import Mathlib

/-!
# Verification of the `serie` data-access core

Shallow embedding of the criteria-driven query builder
(`src/serie/service/query-builder.ts`), the read service
(`src/serie/service/serie-read.service.ts`) and the write service
(`src/serie/service/serie-write.service.ts`) of the `serie` repository,
together with proofs about the behaviour the specification describes.

The embedding translates the TypeScript source: JavaScript string/number
coercions (`parseInt`, `Number`, `isNaN`) are modelled explicitly, TypeORM's
`where`-overrides-previous-clauses semantics is modelled on an explicit
clause list, and the relational store is a record of table rows.
-/

set_option autoImplicit false

/-- View of `Except` as a sum, for deciding equality of results. -/
def exceptToSum {ε α : Type} : Except ε α → ε ⊕ α
  | .error e => .inl e
  | .ok a => .inr a

instance {ε α : Type} [DecidableEq ε] [DecidableEq α] : DecidableEq (Except ε α) :=
  fun a b =>
    decidable_of_iff (exceptToSum a = exceptToSum b) (by cases a <;> cases b <;> simp [exceptToSum])

namespace Serie

/-! ## Character-list string helpers

SQL `LIKE '%x%'` is substring containment, SQL `REPLACE` replaces every
non-overlapping occurrence left to right.  All functions are structural so
that concrete instances evaluate by `decide`. -/

/-- `prefixOfCL p l` is true when `p` is a prefix of `l`. -/
def prefixOfCL : List Char → List Char → Bool
  | [], _ => true
  | _ :: _, [] => false
  | p :: ps, c :: cs => p == c && prefixOfCL ps cs

/-- `containsCL needle hay` is true when `needle` occurs as a contiguous
substring of `hay` (semantics of SQL `LIKE '%needle%'` on non-NULL text). -/
def containsCL (needle : List Char) : List Char → Bool
  | [] => prefixOfCL needle []
  | c :: rest => prefixOfCL needle (c :: rest) || containsCL needle rest

/-- String-level wrapper for `containsCL`. -/
def strContains (hay needle : String) : Bool :=
  containsCL needle.toList hay.toList

/-- One pass of SQL `REPLACE`: fuel-indexed so the definition is structural;
fuel `hay.length` is always enough because every step consumes at least one
character of the haystack. -/
def replaceAux (pat rep : List Char) : Nat → List Char → List Char
  | 0, l => l
  | _ + 1, [] => []
  | fuel + 1, c :: rest =>
      if pat ≠ [] && prefixOfCL pat (c :: rest) then
        rep ++ replaceAux pat rep fuel ((c :: rest).drop pat.length)
      else
        c :: replaceAux pat rep fuel rest

/-- SQL `REPLACE(hay, pat, rep)` on non-NULL text. -/
def replaceAllStr (hay pat rep : String) : String :=
  String.mk (replaceAux pat.toList rep.toList hay.toList.length hay.toList)

/-- ASCII lower-casing of one character, the behaviour of PostgreSQL
`ILIKE` comparison (case folding) restricted to ASCII. -/
def lowerChar (c : Char) : Char :=
  if 'A' ≤ c ∧ c ≤ 'Z' then Char.ofNat (c.toNat + 32) else c

/-- ASCII lower-casing of a string. -/
def lowerStr (s : String) : String :=
  String.mk (s.toList.map lowerChar)

/-- Case-insensitive substring containment: semantics of
`titel ILIKE '%needle%'` under PostgreSQL (the configured TypeORM driver per
the repository's DDL script). -/
def strContainsCI (hay needle : String) : Bool :=
  strContains (lowerStr hay) (lowerStr needle)

/-! ## JavaScript number coercions -/

/-- Whitespace trimmed by JavaScript `Number(...)` and skipped by
`parseInt` (ASCII subset; the source never passes non-ASCII whitespace). -/
def isJsSpace (c : Char) : Bool :=
  c == ' ' || c == '\t' || c == '\n' || c == '\r' || c == '\x0b' || c == '\x0c'

/-- Value of a decimal digit character, `none` for non-digits. -/
def digitVal? (c : Char) : Option Nat :=
  if c.isDigit then some (c.toNat - '0'.toNat) else none

/-- Numeric value of a digit run, most significant first. -/
def digitsToNat (ds : List Char) : Nat :=
  ds.foldl (fun acc c => acc * 10 + (c.toNat - '0'.toNat)) 0

/-- Value of a hexadecimal digit character, `none` for others. -/
def hexVal? (c : Char) : Option Nat :=
  if c.isDigit then some (c.toNat - '0'.toNat)
  else if 'a' ≤ c ∧ c ≤ 'f' then some (c.toNat - 'a'.toNat + 10)
  else if 'A' ≤ c ∧ c ≤ 'F' then some (c.toNat - 'A'.toNat + 10)
  else none

/-- Numeric value of a hex digit run. -/
def hexDigitsToNat (ds : List Char) : Nat :=
  ds.foldl (fun acc c => acc * 16 + ((hexVal? c).getD 0)) 0

/-- JavaScript `parseInt(s, 10)`: skip leading whitespace, optional sign,
then a maximal run of decimal digits; `none` models `NaN` (no digit). -/
def jsParseInt10 (s : String) : Option Int :=
  let l := s.toList.dropWhile isJsSpace
  let (neg, l) :=
    match l with
    | '-' :: rest => (true, rest)
    | '+' :: rest => (false, rest)
    | rest => (false, rest)
  let ds := l.takeWhile Char.isDigit
  if ds.isEmpty then none
  else some (if neg then -(digitsToNat ds : Int) else (digitsToNat ds : Int))

/-- JavaScript `parseInt(s)` without an explicit radix: as `parseInt(s, 10)`
except that a `0x`/`0X` prefix switches to hexadecimal. -/
def jsParseIntAuto (s : String) : Option Int :=
  let l := s.toList.dropWhile isJsSpace
  let (neg, l) :=
    match l with
    | '-' :: rest => (true, rest)
    | '+' :: rest => (false, rest)
    | rest => (false, rest)
  match l with
  | '0' :: 'x' :: rest =>
      let ds := rest.takeWhile (fun c => (hexVal? c).isSome)
      if ds.isEmpty then none
      else some (if neg then -(hexDigitsToNat ds : Int) else (hexDigitsToNat ds : Int))
  | '0' :: 'X' :: rest =>
      let ds := rest.takeWhile (fun c => (hexVal? c).isSome)
      if ds.isEmpty then none
      else some (if neg then -(hexDigitsToNat ds : Int) else (hexDigitsToNat ds : Int))
  | _ =>
      let ds := l.takeWhile Char.isDigit
      if ds.isEmpty then none
      else some (if neg then -(digitsToNat ds : Int) else (digitsToNat ds : Int))

/-- Result of JavaScript `Number(string)`: `NaN`, the two infinities, or a
finite value (IEEE rounding of decimal literals is immaterial here because
the value is only compared against exact decimal column values). -/
inductive JsNum where
  | nan
  | posInf
  | negInf
  | val (q : ℚ)
  deriving DecidableEq

/-- Unsigned body of a JavaScript `StrDecimalLiteral`:
`digits [. digits] [e[sign]digits]` or `. digits [e...]`; the whole rest of
the input must be consumed. -/
def jsDecimalBody (l : List Char) : Option ℚ :=
  let intDs := l.takeWhile Char.isDigit
  let afterInt := l.drop intDs.length
  let (fracDs, afterFrac) :=
    match afterInt with
    | '.' :: rest => (rest.takeWhile Char.isDigit, rest.drop (rest.takeWhile Char.isDigit).length)
    | _ => ([], afterInt)
  if intDs.isEmpty ∧ fracDs.isEmpty then none
  else
    let mantissa : ℚ :=
      (digitsToNat intDs : ℚ) + (digitsToNat fracDs : ℚ) / ((10 : ℚ) ^ fracDs.length)
    match afterFrac with
    | [] => some mantissa
    | e :: rest =>
        if e == 'e' || e == 'E' then
          let (eneg, rest) :=
            match rest with
            | '-' :: r => (true, r)
            | '+' :: r => (false, r)
            | r => (false, r)
          let eds := rest.takeWhile Char.isDigit
          if eds.isEmpty ∨ ¬(rest.drop eds.length).isEmpty then none
          else
            let ex := digitsToNat eds
            some (if eneg then mantissa / ((10 : ℚ) ^ ex) else mantissa * ((10 : ℚ) ^ ex))
        else none

/-- JavaScript `Number(string)`: trim whitespace; empty means `0`; a
`0x`/`0o`/`0b` prefix (no sign allowed) is a non-decimal integer literal;
otherwise an optional sign followed by `Infinity` or a decimal literal,
consuming the whole string; anything else is `NaN`. -/
def jsNumberOfString (s : String) : JsNum :=
  let l := (s.toList.dropWhile isJsSpace).reverse.dropWhile isJsSpace |>.reverse
  match l with
  | [] => .val 0
  | '0' :: 'x' :: rest =>
      let ds := rest.takeWhile (fun c => (hexVal? c).isSome)
      if ds.isEmpty ∨ ¬(rest.drop ds.length).isEmpty then .nan
      else .val (hexDigitsToNat ds : ℚ)
  | '0' :: 'X' :: rest =>
      let ds := rest.takeWhile (fun c => (hexVal? c).isSome)
      if ds.isEmpty ∨ ¬(rest.drop ds.length).isEmpty then .nan
      else .val (hexDigitsToNat ds : ℚ)
  | _ =>
      let (neg, body) :=
        match l with
        | '-' :: rest => (true, rest)
        | '+' :: rest => (false, rest)
        | rest => (false, rest)
      if body == "Infinity".toList then
        if neg then .negInf else .posInf
      else
        match jsDecimalBody body with
        | some q => .val (if neg then -q else q)
        | none => .nan

/-! ## Data model

Rows of the four tables, following `serie.entity.ts`, the `Titel`/`Cover`
entity classes and the DDL script `create-table-serie.sql`.  `preis` and
`rabatt` are fixed-point decimals (`decimal.js` in the source), modelled as
exact rationals. -/

/-- `SerieArt` of `serie.entity.ts`. -/
inductive SerieArt where
  | STREAM
  | TV
  | DVD
  deriving DecidableEq

/-- Wire string of a `SerieArt` value. -/
def SerieArt.toWire : SerieArt → String
  | .STREAM => "STREAM"
  | .TV => "TV"
  | .DVD => "DVD"

/-- A row of the `serie` table.  `schlagwoerter` is a nullable
`simple-array` column (`none` models SQL NULL; TypeORM stores the list
comma-joined). -/
structure SerieRow where
  id : Nat
  version : Nat
  seriennummer : String
  rating : Int
  art : Option SerieArt
  preis : ℚ
  rabatt : ℚ
  trailer : Bool
  datum : Option String
  homepage : Option String
  schlagwoerter : Option (List String)
  deriving DecidableEq

/-- A row of the `titel` table (`serie_id` is the owning Serie, UNIQUE per
the DDL). -/
structure TitelRow where
  id : Nat
  titel : String
  untertitel : Option String
  serieId : Nat
  deriving DecidableEq

/-- A row of the `cover` table. -/
structure CoverRow where
  id : Nat
  beschriftung : String
  contentType : String
  serieId : Nat
  deriving DecidableEq

/-- A row of the `serie_file` table. -/
structure SerieFileRow where
  id : Nat
  data : List Nat
  filename : String
  mimetype : Option String
  serieId : Nat
  deriving DecidableEq

/-- The stored `simple-array` text of a keyword list: TypeORM joins the
entries with a comma; the SQL `LIKE`/`REPLACE` clauses of the query builder
operate on this text. -/
def schlagwoerterText (tags : List String) : String :=
  String.intercalate "," tags

/-- The relational store: one list of rows per table plus the identity
counters of the `GENERATED ALWAYS AS IDENTITY` columns. -/
structure Db where
  serien : List SerieRow
  titelRows : List TitelRow
  coverRows : List CoverRow
  fileRows : List SerieFileRow
  nextSerieId : Nat
  nextTitelId : Nat
  nextCoverId : Nat
  deriving DecidableEq

/-- A Serie row inner-joined with its Titel row, the shape every criteria
query of `QueryBuilder.build` ranges over
(`innerJoinAndSelect(serie.titel, titel)`). -/
structure SerieJoined where
  serie : SerieRow
  titel : TitelRow
  deriving DecidableEq

/-- All inner-join rows of `serie ⋈ titel`: every pairing of a Serie row
with a Titel row whose `serie_id` matches, Serie-major order. -/
def Db.joined (db : Db) : List SerieJoined :=
  db.serien.flatMap fun s =>
    (db.titelRows.filter (fun t => t.serieId == s.id)).map fun t => ⟨s, t⟩

/-- The entity `SerieReadService.findById` returns: the joined row plus the
Cover collection when it was requested (`covers` stays `none` when the
relation was not joined, mirroring the undefined relation property). -/
structure SerieEntity where
  serie : SerieRow
  titel : TitelRow
  covers : Option (List CoverRow)
  deriving DecidableEq

/-! ## Criteria model

`Suchkriterien` is a loosely typed JS object; it is modelled as an
association list from key to value in object insertion order (JS string
keys enumerate in insertion order).  A value is a string, a number or a
boolean. -/

/-- A value in a criteria object. -/
inductive CritVal where
  | str (s : String)
  | num (q : ℚ)
  | bool (b : Bool)
  deriving DecidableEq

/-- A criteria object (`Suchkriterien`). -/
abbrev Criteria := List (String × CritVal)

/-! ## Query builder

`QueryBuilder.build` accumulates SQL clauses on a TypeORM
`SelectQueryBuilder`.  Crucially, TypeORM's `.where(...)` *replaces* the
whole WHERE expression built so far, while `.andWhere(...)` conjoins; the
source calls plain `.where` in the `titel`, `rating` and `preis` branches
and `useWhere ? where : andWhere` in the keyword-shortcut and rest-property
branches. -/

/-- One WHERE clause as the source writes it. -/
inductive Clause where
  /-- `titel.titel ilike '%s%'` (parameterized; PostgreSQL `ilike`). -/
  | titelLike (s : String)
  /-- `serie.rating >= q` (the interpolated `ratingNumber`). -/
  | ratingGe (q : ℚ)
  /-- `serie.preis <= v` where `v` is `Number(preis)`, possibly NaN. -/
  | preisLe (v : JsNum)
  /-- `serie.schlagwoerter like '%tag%'`. -/
  | schlagwortLike (tag : String)
  /-- `REPLACE(serie.schlagwoerter, strip, '') like '%tag%'`. -/
  | schlagwortLikeReplace (strip tag : String)
  /-- `serie.key = :key` for a rest property. -/
  | eqField (key : String) (v : CritVal)
  deriving DecidableEq

/-- Evaluation of an equality clause `serie.${key} = :value` against a
joined row.  Keys that are no column of the `serie` table would make the
SQL fail at execution; such a clause matches no row here.  SQL comparisons
with NULL are not true, so a NULL column never matches. -/
def evalEqField (r : SerieJoined) (key : String) (v : CritVal) : Bool :=
  match key with
  | "id" => v == .num (r.serie.id : ℚ)
  | "version" => v == .num (r.serie.version : ℚ)
  | "seriennummer" => v == .str r.serie.seriennummer
  | "rating" => v == .num (r.serie.rating : ℚ)
  | "art" =>
      match r.serie.art with
      | some a => v == .str a.toWire
      | none => false
  | "preis" => v == .num r.serie.preis
  | "rabatt" => v == .num r.serie.rabatt
  | "trailer" =>
      match v with
      | .bool b => b == r.serie.trailer
      | _ => false
  | "datum" =>
      match r.serie.datum with
      | some d => v == .str d
      | none => false
  | "homepage" =>
      match r.serie.homepage with
      | some h => v == .str h
      | none => false
  | "schlagwoerter" =>
      match r.serie.schlagwoerter with
      | some tags => v == .str (schlagwoerterText tags)
      | none => false
  | _ => false

/-- Truth of one clause at one joined row. -/
def evalClause (c : Clause) (r : SerieJoined) : Bool :=
  match c with
  | .titelLike s => strContainsCI r.titel.titel s
  | .ratingGe q => q ≤ (r.serie.rating : ℚ)
  | .preisLe v =>
      match v with
      | .val q => r.serie.preis ≤ q
      -- `NaN`, `Infinity`, `-Infinity` interpolate as bare identifiers,
      -- invalid SQL; such a clause never reaches row evaluation because
      -- `execQuery` rejects the whole query (`Clause.sqlValid`), so the
      -- value below is a placeholder, not a semantics.
      | _ => false
  | .schlagwortLike tag =>
      match r.serie.schlagwoerter with
      | some tags => strContains (schlagwoerterText tags) tag
      | none => false
  | .schlagwortLikeReplace strip tag =>
      match r.serie.schlagwoerter with
      | some tags => strContains (replaceAllStr (schlagwoerterText tags) strip "") tag
      | none => false
  | .eqField key v => evalEqField r key v

/-- The mutable state of the TypeORM builder reduced to its observable
content: the current WHERE clause list (a conjunction) and the source's
`useWhere` flag. -/
structure QBState where
  clauses : List Clause
  useWhere : Bool
  deriving DecidableEq

/-- TypeORM `queryBuilder.where(c)`: replaces every clause accumulated so
far.  All three source call sites also set `useWhere = false`. -/
def applyWhere (_ : QBState) (c : Clause) : QBState :=
  ⟨[c], false⟩

/-- TypeORM `queryBuilder.andWhere(c)`: conjoins. -/
def applyAndWhere (st : QBState) (c : Clause) : QBState :=
  ⟨st.clauses ++ [c], false⟩

/-- The source's `useWhere ? queryBuilder.where(c) : queryBuilder.andWhere(c)`
followed by `useWhere = false`. -/
def applyUseWhere (st : QBState) (c : Clause) : QBState :=
  if st.useWhere then applyWhere st c else applyAndWhere st c

/-- `titel` branch of `build`: a plain `.where` when `titel` is defined and
a string. -/
def stepTitel (crit : Criteria) (st : QBState) : QBState :=
  match crit.lookup "titel" with
  | some (.str s) => applyWhere st (.titelLike s)
  | _ => st

/-- The source's `typeof rating === 'string' ? parseInt(rating) : rating`
followed by the `isNaN` guard; `none` is NaN.  A boolean passes `isNaN`
(`Number(bool)` is 0 or 1), modelled by that coercion. -/
def ratingNumberOf : CritVal → Option ℚ
  | .num q => some q
  | .str s => (jsParseIntAuto s).map (fun n => (n : ℚ))
  | .bool b => some (if b then 1 else 0)

/-- `rating` branch of `build`: a plain `.where` unless the value is NaN. -/
def stepRating (crit : Criteria) (st : QBState) : QBState :=
  match crit.lookup "rating" with
  | none => st
  | some v =>
      match ratingNumberOf v with
      | some q => applyWhere st (.ratingGe q)
      | none => st

/-- `preis` branch of `build`: a plain `.where` only when the value is a
string; the clause carries `Number(preis)` verbatim, NaN included. -/
def stepPreis (crit : Criteria) (st : QBState) : QBState :=
  match crit.lookup "preis" with
  | some (.str s) => applyWhere st (.preisLe (jsNumberOfString s))
  | _ => st

/-- A keyword-shortcut branch fires only on the string value `'true'`
(`javascript === 'true'` compares against that literal). -/
def shortcutOn (crit : Criteria) (key : String) : Bool :=
  crit.lookup key == some (.str "true")

/-- `javascript` branch. -/
def stepJavascript (crit : Criteria) (st : QBState) : QBState :=
  if shortcutOn crit "javascript" then applyUseWhere st (.schlagwortLike "JAVASCRIPT") else st

/-- `typescript` branch. -/
def stepTypescript (crit : Criteria) (st : QBState) : QBState :=
  if shortcutOn crit "typescript" then applyUseWhere st (.schlagwortLike "TYPESCRIPT") else st

/-- `java` branch: strips `JAVASCRIPT` from the stored keyword text before
testing `JAVA` containment. -/
def stepJava (crit : Criteria) (st : QBState) : QBState :=
  if shortcutOn crit "java" then
    applyUseWhere st (.schlagwortLikeReplace "JAVASCRIPT" "JAVA")
  else st

/-- `python` branch. -/
def stepPython (crit : Criteria) (st : QBState) : QBState :=
  if shortcutOn crit "python" then applyUseWhere st (.schlagwortLike "PYTHON") else st

/-- The keys consumed by the destructuring pattern of `build`; every other
key lands in `restProps`. -/
def destructuredKeys : List String :=
  ["titel", "rating", "preis", "javascript", "typescript", "java", "python"]

/-- `restProps` of the destructuring, in object insertion order. -/
def restPropsOf (crit : Criteria) : Criteria :=
  crit.filter fun kv => !(destructuredKeys.contains kv.1)

/-- `Object.entries(restProps).forEach(...)`: one equality clause per
remaining key. -/
def stepRest (crit : Criteria) (st : QBState) : QBState :=
  (restPropsOf crit).foldl (fun st kv => applyUseWhere st (.eqField kv.1 kv.2)) st

/-- The clause state after the whole filter cascade of `build`. -/
def buildState (crit : Criteria) : QBState :=
  stepRest crit (stepPython crit (stepJava crit (stepTypescript crit
    (stepJavascript crit (stepPreis crit (stepRating crit (stepTitel crit ⟨[], true⟩)))))))

/-- Pagination parameters handed to `build`. -/
structure Pageable where
  number : Nat
  size : Nat
  deriving DecidableEq

/-- The executable query `build` returns: the WHERE conjunction plus
`take`/`skip`, the latter absent for the `size = 0` sentinel. -/
structure BuiltQuery where
  clauses : List Clause
  paging : Option (Nat × Nat)
  deriving DecidableEq

namespace QueryBuilder

/-- `QueryBuilder.build(suchkriterien, pageable)`. -/
def build (crit : Criteria) (pageable : Pageable) : BuiltQuery :=
  { clauses := (buildState crit).clauses
    paging :=
      if pageable.size == 0 then none
      else some (pageable.size, pageable.number * pageable.size) }

end QueryBuilder

/-- A row satisfies the WHERE conjunction. -/
def queryMatches (q : BuiltQuery) (r : SerieJoined) : Bool :=
  q.clauses.all (fun c => evalClause c r)

/-- The row result of a query whose SQL is well-formed: the filtered
corpus, paginated when `take`/`skip` are set (`execQuery` below is the
driver-level `getMany()`, which rejects ill-formed SQL first). -/
def runQuery (q : BuiltQuery) (corpus : List SerieJoined) : List SerieJoined :=
  let filtered := corpus.filter (queryMatches q)
  match q.paging with
  | none => filtered
  | some (take, skip) => (filtered.drop skip).take take

/-- `getCount()`: TypeORM counts over the same predicate without
`take`/`skip`. -/
def countQuery (q : BuiltQuery) (corpus : List SerieJoined) : Nat :=
  (corpus.filter (queryMatches q)).length

/-- Whether the SQL text of a clause is well-formed.  The `preis` branch of
`build` interpolates `Number(preis)` verbatim into the query text
(`serie.preis <= ${preisNumber}`): a finite value prints as a numeric
literal, but `NaN`, `Infinity` and `-Infinity` print as bare identifiers —
invalid column references in PostgreSQL, MySQL and SQLite alike.  Every
other clause is parameterized or built from fixed text. -/
def Clause.sqlValid : Clause → Bool
  | .preisLe (.val _) => true
  | .preisLe _ => false
  | _ => true

/-- The driver error raised for the ill-formed interpolations
(TypeORM surfaces it as a `QueryFailedError`). -/
def invalidColumnMsg : String :=
  "QueryFailedError: invalid column reference"

/-- `getMany()` as the driver executes it: a query whose SQL is ill-formed
fails with a query error; otherwise the rows are filtered and paginated. -/
def execQuery (q : BuiltQuery) (corpus : List SerieJoined) :
    Except String (List SerieJoined) :=
  if q.clauses.all Clause.sqlValid then .ok (runQuery q corpus)
  else .error invalidColumnMsg

/-! ## Error taxonomy

The exceptions the two services actually throw: NestJS
`NotFoundException` (also used for invalid criteria), and
`VersionInvalidException`, `VersionOutdatedException`,
`IsbnExistsException` from `service/exceptions.ts`.  There is no separate
invalid-criteria exception type in the source. -/

/-- The service-level errors, one constructor per exception class thrown. -/
inductive ServiceError where
  /-- `NotFoundException(message)`. -/
  | notFound (message : String)
  /-- `VersionInvalidException(version)`, carrying the raw token. -/
  | invalidVersion (version : String)
  /-- `VersionOutdatedException(version)`, carrying the parsed number. -/
  | outdatedVersion (version : Int)
  /-- `IsbnExistsException(isbn)`; the destructured `isbn` property does not
  exist on the `Serie` entity, so the carried value is always `undefined`. -/
  | alreadyExists (isbn : Option String)
  /-- A driver `QueryFailedError` propagating uncaught through the service
  (the services install no try/catch around query execution). -/
  | queryFailed (message : String)
  deriving DecidableEq

/-- A page of results (`Slice<Serie>`). -/
structure Slice where
  content : List SerieEntity
  totalElements : Nat
  deriving DecidableEq

/-! ## Read service -/

namespace SerieReadService

/-- `if (serie.schlagwoerter === null) serie.schlagwoerter = []` — the
normalization `findById` and `#createSlice` apply. -/
def normalizeEntity (e : SerieEntity) : SerieEntity :=
  match e.serie.schlagwoerter with
  | none => { e with serie := { e.serie with schlagwoerter := some [] } }
  | some _ => e

/-- `SerieReadService.findById({id, mitCovers})`: run the id query
(`buildId` inner-joins Titel, left-joins Cover only on request, filters
`serie.id = :id`, `getOne()` takes the first row), fail with
`NotFoundException` on no row, then normalize the keyword list. -/
def findById (db : Db) (id : Nat) (mitCovers : Bool) : Except ServiceError SerieEntity :=
  match db.joined.find? (fun jr => jr.serie.id == id) with
  | none => .error (.notFound ("Es gibt keine Serie mit der ID " ++ toString id ++ "."))
  | some jr =>
      .ok (normalizeEntity
        { serie := jr.serie
          titel := jr.titel
          covers :=
            if mitCovers then some (db.coverRows.filter (fun c => c.serieId == jr.serie.id))
            else none })

/-- The properties `Object.getOwnPropertyNames(new Serie())` yields: the
instance fields declared in `serie.entity.ts` (class fields are defined on
the instance) plus the `toString` arrow-function property initializer. -/
def serieProps : List String :=
  ["id", "version", "seriennummer", "rating", "art", "preis", "rabatt",
   "trailer", "datum", "homepage", "schlagwoerter", "titel", "covers",
   "file", "erzeugt", "aktualisiert", "toString"]

/-- The per-key condition of `#checkKeys`: the key is a `Serie` property or
one of the four keyword shortcuts. -/
def recognizedKey (key : String) : Bool :=
  serieProps.contains key || key == "javascript" || key == "typescript" ||
    key == "java" || key == "python"

/-- `#checkKeys`: every criteria key is recognized. -/
def checkKeys (keys : List String) : Bool :=
  keys.all recognizedKey

/-- The value condition of `#checkEnums`. -/
def validArt (v : CritVal) : Bool :=
  v == .str "STREAM" || v == .str "TV" || v == .str "DVD"

/-- `#checkEnums`: the `art` value, when present, is one of the three enum
strings. -/
def checkEnums (crit : Criteria) : Bool :=
  match crit.lookup "art" with
  | none => true
  | some v => validArt v

/-- `#createSlice`: normalize each entity's keyword list and wrap content
with the total count. -/
def createSlice (content : List SerieEntity) (totalElements : Nat) : Slice :=
  { content := content.map normalizeEntity, totalElements }

/-- An entity as criteria queries return it: joined row, covers not
loaded. -/
def entityOfJoined (jr : SerieJoined) : SerieEntity :=
  { serie := jr.serie, titel := jr.titel, covers := none }

/-- `#findAll`: the empty-criteria query (its SQL is always well-formed,
but the driver-level execution is kept uniform). -/
def findAll (db : Db) (pageable : Pageable) : Except ServiceError Slice :=
  let q := QueryBuilder.build [] pageable
  match execQuery q db.joined with
  | .error msg => .error (.queryFailed msg)
  | .ok buecher =>
      if buecher.isEmpty then
        .error (.notFound ("Ungueltige Seite \x22" ++ toString pageable.number ++ "\x22"))
      else
        .ok (createSlice (buecher.map entityOfJoined) (countQuery q db.joined))

/-- `SerieReadService.find(suchkriterien, pageable)`: absent or empty
criteria fall back to `#findAll`; invalid keys or an invalid `art` value
fail with `NotFoundException('Ungueltige Suchkriterien')` before the query
is built; a zero-result query fails with `NotFoundException`; otherwise the
page is assembled by `#createSlice` (the dynamic JSON payload of the
zero-result message is abstracted to its constant prefix).  Query execution
goes through the driver: ill-formed SQL — the `NaN`/`Infinity`
interpolations of the `preis` branch — raises a `QueryFailedError` that
propagates uncaught. -/
def find (db : Db) (crit? : Option Criteria) (pageable : Pageable) : Except ServiceError Slice :=
  match crit? with
  | none => findAll db pageable
  | some crit =>
      if crit.isEmpty then findAll db pageable
      else if ¬(checkKeys (crit.map Prod.fst) && checkEnums crit) then
        .error (.notFound "Ungueltige Suchkriterien")
      else
        let q := QueryBuilder.build crit pageable
        match execQuery q db.joined with
        | .error msg => .error (.queryFailed msg)
        | .ok buecher =>
            if buecher.isEmpty then
              .error (.notFound "Keine Buecher gefunden")
            else
              .ok (createSlice (buecher.map entityOfJoined) (countQuery q db.joined))

end SerieReadService

/-! ## Write service -/

namespace SerieWriteService

/-- Matcher for the regex fragment `\d{1,n}"`: between one and `n` decimal
digits followed by a closing quote (with backtracking: after each digit,
either the quote comes next or more digits are tried while the repetition
budget lasts).  Whatever follows the quote is ignored — the source regex
has no `$` anchor. -/
def digitsThenQuote : Nat → List Char → Bool
  | 0, _ => false
  | _ + 1, [] => false
  | n + 1, c :: rest =>
      c.isDigit && (rest.head? == some '\x22' || digitsThenQuote n rest)

/-- `VERSION_PATTERN = /^"\d{1,3}"/u` applied to a character list: an
opening quote, then `\d{1,3}"`. -/
def vpt : List Char → Bool
  | [] => false
  | c :: rest => c == '\x22' && digitsThenQuote 3 rest

/-- `SerieWriteService.VERSION_PATTERN.test(versionStr)`. -/
def versionPatternTest (s : String) : Bool :=
  vpt s.toList

/-- JavaScript `versionStr.slice(1, -1)`: drop the first and last
character. -/
def sliceOneNegOne (s : String) : String :=
  String.mk (s.toList.drop 1).dropLast

/-- The caller-updatable scalar fields of a `Serie` payload; `undefined`
fields (`none`) are skipped by `repo.merge`. -/
structure SeriePayload where
  seriennummer : Option String := none
  rating : Option Int := none
  art : Option SerieArt := none
  preis : Option ℚ := none
  rabatt : Option ℚ := none
  trailer : Option Bool := none
  datum : Option String := none
  homepage : Option String := none
  schlagwoerter : Option (List String) := none
  deriving DecidableEq

/-- `repo.merge(serieDb, serie)`: defined payload fields overwrite the
loaded record, absent fields keep the stored values. -/
def mergeSerie (stored : SerieRow) (p : SeriePayload) : SerieRow :=
  { stored with
    seriennummer := p.seriennummer.getD stored.seriennummer
    rating := p.rating.getD stored.rating
    art := match p.art with | some a => some a | none => stored.art
    preis := p.preis.getD stored.preis
    rabatt := p.rabatt.getD stored.rabatt
    trailer := p.trailer.getD stored.trailer
    datum := match p.datum with | some d => some d | none => stored.datum
    homepage := match p.homepage with | some h => some h | none => stored.homepage
    schlagwoerter := match p.schlagwoerter with | some l => some l | none => stored.schlagwoerter }

/-- `repo.save` on an existing row: `UPDATE ... WHERE id = :id`; the
`@VersionColumn` is incremented by the store on every successful update. -/
def saveSerie (db : Db) (id : Nat) (row : SerieRow) : Db :=
  { db with serien := db.serien.map fun r => if r.id == id then row else r }

/-- `SerieWriteService.update({id, serie, version})`: missing id fails with
`NotFoundException`; `#validateUpdate` checks the version-token shape
(`VersionInvalidException`), parses `parseInt(versionStr.slice(1, -1), 10)`,
loads the stored Serie (`NotFoundException` when absent) and fails with
`VersionOutdatedException` when the supplied number is strictly below the
stored version (a NaN comparison is false in JS, so an unparsable number
passes); then the payload is merged onto the loaded record and saved, the
store computing the new version. -/
def update (db : Db) (id? : Option Nat) (payload : SeriePayload) (version : String) :
    Except ServiceError (Nat × Db) :=
  match id? with
  | none => .error (.notFound "Es gibt keine Serie mit der ID undefined.")
  | some id =>
      if ¬versionPatternTest version then .error (.invalidVersion version)
      else
        match SerieReadService.findById db id false with
        | .error e => .error e
        | .ok serieDb =>
            let versionDb := serieDb.serie.version
            let merged := mergeSerie serieDb.serie payload
            let updated := { merged with version := versionDb + 1 }
            let accepted : Except ServiceError (Nat × Db) :=
              .ok (updated.version, saveSerie db id updated)
            match jsParseInt10 (sliceOneNegOne version) with
            | some w => if w < (versionDb : Int) then .error (.outdatedVersion w) else accepted
            | none => accepted

/-- `SerieWriteService.delete(id)`: load the Serie through
`findById` — which throws `NotFoundException` for an absent id — then, in
one transaction, delete the Titel row by its id and the Serie row.  The
source reads `serie.abbildungen` for the child collection; the `Serie`
entity declares no such property (its collection is `covers`), so the read
yields `undefined`, `?? []` turns it into the empty list and no Cover row
is ever deleted; `serie_file` rows are not touched either.  Returns whether
a Serie row was removed. -/
def delete (db : Db) (id : Nat) : Except ServiceError (Bool × Db) :=
  match SerieReadService.findById db id false with
  | .error e => .error e
  | .ok serie =>
      let dbAfterTitel :=
        { db with titelRows := db.titelRows.filter fun t => t.id ≠ serie.titel.id }
      let abbildungen : List CoverRow := []
      let dbAfterCovers :=
        abbildungen.foldl
          (fun acc a => { acc with coverRows := acc.coverRows.filter fun c => c.id ≠ a.id })
          dbAfterTitel
      let affected := (dbAfterCovers.serien.filter fun r => r.id == id).length
      let dbAfterSerie :=
        { dbAfterCovers with serien := dbAfterCovers.serien.filter fun r => r.id ≠ id }
      .ok (affected > 0, dbAfterSerie)

/-- Input payload of `create`: the Serie scalars with the mandatory Titel
and optional Cover children. -/
structure CreateInput where
  seriennummer : String
  rating : Int
  art : Option SerieArt
  preis : ℚ
  rabatt : ℚ
  trailer : Bool
  datum : Option String
  homepage : Option String
  schlagwoerter : Option (List String)
  titel : String
  untertitel : Option String
  covers : List (String × String)
  deriving DecidableEq

/-- `#validateCreate({isbn})`: the destructured `isbn` property does not
exist on the `Serie` entity, so its value is `undefined`; TypeORM drops
undefined criteria values, so `existsBy({isbn})` degenerates to an
existence test over the whole table and fails with `IsbnExistsException`
whenever any Serie row is stored at all. -/
def validateCreate (db : Db) : Except ServiceError Unit :=
  if db.serien.isEmpty then .ok () else .error (.alreadyExists none)

/-- `SerieWriteService.create(serie)`: validate, persist the Serie with its
Titel and Covers in one atomic save, return the generated id (the
fire-and-forget mail notification has no observable store effect and is
omitted). -/
def create (db : Db) (input : CreateInput) : Except ServiceError (Nat × Db) :=
  match validateCreate db with
  | .error e => .error e
  | .ok _ =>
      let id := db.nextSerieId
      let row : SerieRow :=
        { id, version := 0, seriennummer := input.seriennummer, rating := input.rating
          art := input.art, preis := input.preis, rabatt := input.rabatt
          trailer := input.trailer, datum := input.datum, homepage := input.homepage
          schlagwoerter := input.schlagwoerter }
      let titelRow : TitelRow :=
        { id := db.nextTitelId, titel := input.titel, untertitel := input.untertitel
          serieId := id }
      let coverRows :=
        input.covers.enum.map fun (i, bc) =>
          { id := db.nextCoverId + i, beschriftung := bc.1, contentType := bc.2
            serieId := id : CoverRow }
      .ok (id,
        { db with
          serien := db.serien ++ [row]
          titelRows := db.titelRows ++ [titelRow]
          coverRows := db.coverRows ++ coverRows
          nextSerieId := db.nextSerieId + 1
          nextTitelId := db.nextTitelId + 1
          nextCoverId := db.nextCoverId + input.covers.length })

end SerieWriteService

/-! ## Effective clause structure of `build`

Because the `titel`, `rating` and `preis` branches call plain `.where`,
each of them discards every clause accumulated before it.  The WHERE
conjunction `build` ends up with is therefore: the clause of the *last*
applied of `preis`/`rating`/`titel`, followed by the keyword-shortcut
clauses, followed by the rest-property equality clauses. -/

/-- The clause the `titel` branch would install. -/
def titelClauseOf (crit : Criteria) : Option Clause :=
  match crit.lookup "titel" with
  | some (.str s) => some (.titelLike s)
  | _ => none

/-- The clause the `rating` branch would install. -/
def ratingClauseOf (crit : Criteria) : Option Clause :=
  match crit.lookup "rating" with
  | none => none
  | some v =>
      match ratingNumberOf v with
      | some q => some (.ratingGe q)
      | none => none

/-- The clause the `preis` branch would install. -/
def preisClauseOf (crit : Criteria) : Option Clause :=
  match crit.lookup "preis" with
  | some (.str s) => some (.preisLe (jsNumberOfString s))
  | _ => none

/-- The surviving clause of the three `.where` branches: `preis` overrides
`rating` overrides `titel`. -/
def seedClausesOf (crit : Criteria) : List Clause :=
  match preisClauseOf crit with
  | some c => [c]
  | none =>
      match ratingClauseOf crit with
      | some c => [c]
      | none => (titelClauseOf crit).toList

/-- The keyword-shortcut clauses, in source order. -/
def shortcutClausesOf (crit : Criteria) : List Clause :=
  (if shortcutOn crit "javascript" then [Clause.schlagwortLike "JAVASCRIPT"] else []) ++
  (if shortcutOn crit "typescript" then [Clause.schlagwortLike "TYPESCRIPT"] else []) ++
  (if shortcutOn crit "java" then [Clause.schlagwortLikeReplace "JAVASCRIPT" "JAVA"] else []) ++
  (if shortcutOn crit "python" then [Clause.schlagwortLike "PYTHON"] else [])

/-- The rest-property equality clauses, in object insertion order. -/
def eqClausesOf (crit : Criteria) : List Clause :=
  (restPropsOf crit).map fun kv => Clause.eqField kv.1 kv.2

/-- Is a clause the price clause? -/
def isPreisClause : Clause → Bool
  | .preisLe _ => true
  | _ => false

/-- Definition following the words of the specification (for comparison
with the source's `VERSION_PATTERN`): a version token that is exactly a
quoted decimal integer — an opening quote, at least one decimal digit, a
closing quote, and nothing else. -/
def specQuotedDecimalInteger (s : String) : Bool :=
  match s.toList with
  | c :: rest =>
      c == '\x22' && rest.getLast? == some '\x22' &&
        !rest.dropLast.isEmpty && rest.dropLast.all Char.isDigit
  | [] => false

/-! ## Concrete store fixtures used by witnesses and counterexamples -/

/-- A Serie row titled "Alpha" (rating 5), keywords `JAVASCRIPT` only. -/
def alphaRow : SerieRow :=
  { id := 1, version := 0, seriennummer := "SER-1", rating := 5, art := some .STREAM
    preis := 10, rabatt := 0, trailer := false, datum := none, homepage := none
    schlagwoerter := some ["JAVASCRIPT"] }

/-- The Titel row of `alphaRow`. -/
def alphaTitel : TitelRow :=
  { id := 10, titel := "Alpha", untertitel := none, serieId := 1 }

/-- A Serie row titled "Zeta" (rating 1), keywords NULL in storage. -/
def zetaRow : SerieRow :=
  { id := 2, version := 0, seriennummer := "SER-2", rating := 1, art := some .TV
    preis := 20, rabatt := 0, trailer := true, datum := none, homepage := none
    schlagwoerter := none }

/-- The Titel row of `zetaRow`. -/
def zetaTitel : TitelRow :=
  { id := 20, titel := "Zeta", untertitel := none, serieId := 2 }

/-- "Alpha" joined with its Titel. -/
def alphaJ : SerieJoined := ⟨alphaRow, alphaTitel⟩

/-- "Zeta" joined with its Titel. -/
def zetaJ : SerieJoined := ⟨zetaRow, zetaTitel⟩

/-- "Zeta" tagged with both `JAVA` and `JAVASCRIPT`. -/
def bothRow : SerieRow :=
  { zetaRow with schlagwoerter := some ["JAVA", "JAVASCRIPT"] }

/-- The doubly-tagged row joined with its Titel. -/
def bothJ : SerieJoined := ⟨bothRow, zetaTitel⟩

/-- Default page request: first page of five. -/
def pg0 : Pageable := ⟨0, 5⟩

/-- The scenario criteria of the specification. -/
def critScen : Criteria := [("titel", .str "a"), ("rating", .num 3)]

/-- Store holding the Alpha Serie only. -/
def dbAlpha : Db :=
  { serien := [alphaRow], titelRows := [alphaTitel], coverRows := [], fileRows := []
    nextSerieId := 1000, nextTitelId := 1000, nextCoverId := 1000 }

/-- Store holding the Alpha Serie at version 2 (for the concurrency
scenario). -/
def dbV2 : Db :=
  { dbAlpha with serien := [{ alphaRow with version := 2 }] }

/-- An update payload setting the rating. -/
def payRating3 : SerieWriteService.SeriePayload := { rating := some 3 }

/-- A Cover row owned by the Alpha Serie. -/
def coverA : CoverRow :=
  { id := 30, beschriftung := "Abb. 1", contentType := "img/png", serieId := 1 }

/-- A BinaryFile row owned by the Alpha Serie. -/
def fileA : SerieFileRow :=
  { id := 40, data := [1, 2], filename := "poster.png", mimetype := some "img/png"
    serieId := 1 }

/-- Store holding Alpha with one Cover child and one BinaryFile child. -/
def dbChildren : Db :=
  { dbAlpha with coverRows := [coverA], fileRows := [fileA] }

/-- Store holding the Zeta Serie only (keywords NULL in storage). -/
def dbZeta : Db :=
  { serien := [zetaRow], titelRows := [zetaTitel], coverRows := [], fileRows := []
    nextSerieId := 1000, nextTitelId := 1000, nextCoverId := 1000 }

/-- A create payload with a serial number not yet stored. -/
def freshInput : SerieWriteService.CreateInput :=
  { seriennummer := "SER-2", rating := 1, art := none, preis := 5, rabatt := 0
    trailer := false, datum := none, homepage := none, schlagwoerter := none
    titel := "Neu", untertitel := none, covers := [] }

/-- The store after the Alpha Serie and its Titel were removed. -/
def dbEmptied : Db :=
  { serien := [], titelRows := [], coverRows := [], fileRows := []
    nextSerieId := 1000, nextTitelId := 1000, nextCoverId := 1000 }

theorem stepTitel_eq (crit : Criteria) (st : QBState) :
    stepTitel crit st =
      match titelClauseOf crit with
      | some c => applyWhere st c
      | none => st := by
  unfold stepTitel titelClauseOf
  rcases crit.lookup "titel" with _ | v
  · rfl
  · rcases v <;> rfl

theorem stepRating_eq (crit : Criteria) (st : QBState) :
    stepRating crit st =
      match ratingClauseOf crit with
      | some c => applyWhere st c
      | none => st := by
  unfold stepRating ratingClauseOf
  rcases crit.lookup "rating" with _ | v
  · rfl
  · rcases h : ratingNumberOf v with _ | q <;> simp [h]

theorem stepPreis_eq (crit : Criteria) (st : QBState) :
    stepPreis crit st =
      match preisClauseOf crit with
      | some c => applyWhere st c
      | none => st := by
  unfold stepPreis preisClauseOf
  rcases crit.lookup "preis" with _ | v
  · rfl
  · rcases v <;> rfl

/-- The state after the three `.where` branches: the surviving seed clause
with `useWhere` still true exactly when nothing was installed. -/
theorem seedState_eq (crit : Criteria) :
    stepPreis crit (stepRating crit (stepTitel crit ⟨[], true⟩)) =
      ⟨seedClausesOf crit, (seedClausesOf crit).isEmpty⟩ := by
  rw [stepTitel_eq, stepRating_eq, stepPreis_eq]
  unfold seedClausesOf
  rcases preisClauseOf crit with _ | cp
  · rcases ratingClauseOf crit with _ | cr
    · rcases titelClauseOf crit with _ | ct <;> simp [applyWhere]
    · rcases titelClauseOf crit with _ | ct <;> simp [applyWhere]
  · rcases ratingClauseOf crit with _ | cr <;>
      rcases titelClauseOf crit with _ | ct <;> simp [applyWhere]

/-- On a state satisfying the `useWhere ↔ no clause yet` invariant,
`useWhere ? where : andWhere` is plain clause appending. -/
theorem applyUseWhere_inv (cs : List Clause) (c : Clause) :
    applyUseWhere ⟨cs, cs.isEmpty⟩ c = ⟨cs ++ [c], (cs ++ [c]).isEmpty⟩ := by
  cases cs <;> simp [applyUseWhere, applyWhere, applyAndWhere]

theorem condStep_inv (b : Bool) (c : Clause) (cs : List Clause) :
    (if b then applyUseWhere ⟨cs, cs.isEmpty⟩ c else ⟨cs, cs.isEmpty⟩) =
      ⟨cs ++ (if b then [c] else []), (cs ++ (if b then [c] else [])).isEmpty⟩ := by
  cases b <;> simp [applyUseWhere_inv]

theorem stepRest_inv (l : Criteria) :
    ∀ cs : List Clause,
      l.foldl (fun st kv => applyUseWhere st (.eqField kv.1 kv.2)) ⟨cs, cs.isEmpty⟩ =
        ⟨cs ++ l.map (fun kv => Clause.eqField kv.1 kv.2),
         (cs ++ l.map (fun kv => Clause.eqField kv.1 kv.2)).isEmpty⟩ := by
  induction l with
  | nil => intro cs; simp
  | cons kv rest ih =>
      intro cs
      simp only [List.foldl_cons, applyUseWhere_inv, List.map_cons]
      rw [ih (cs ++ [Clause.eqField kv.1 kv.2])]
      simp

/-- The WHERE conjunction `build` produces, for every criteria object. -/
theorem buildState_clauses (crit : Criteria) :
    (buildState crit).clauses =
      seedClausesOf crit ++ shortcutClausesOf crit ++ eqClausesOf crit := by
  unfold buildState stepJavascript stepTypescript stepJava stepPython stepRest
  rw [seedState_eq, condStep_inv, condStep_inv, condStep_inv, condStep_inv,
    stepRest_inv]
  unfold shortcutClausesOf eqClausesOf
  simp [List.append_assoc]

/-- The same statement at the level of `QueryBuilder.build`. -/
theorem build_clauses (crit : Criteria) (pg : Pageable) :
    (QueryBuilder.build crit pg).clauses =
      seedClausesOf crit ++ shortcutClausesOf crit ++ eqClausesOf crit := by
  unfold QueryBuilder.build
  exact buildState_clauses crit

/-! ## Claim C1 -/

/-- C1, counterexample.  The claim says a row is returned only if it
satisfies *every* supplied filter.  For criteria
`{titel: 'xyz', rating: 3}` the `rating` branch calls plain `.where`,
which discards the `titel` clause, so the "Alpha" row is returned even
though its title does not contain `xyz`. -/
theorem c1_counterexample :
    runQuery
        (QueryBuilder.build [("titel", CritVal.str "xyz"), ("rating", CritVal.num 3)] pg0)
        [alphaJ] = [alphaJ] ∧
    evalClause (.titelLike "xyz") alphaJ = false := by
  constructor <;> decide

/-- C1, amended.  `titel`, `rating` and `preis` each open a fresh WHERE
(TypeORM `.where` discards earlier clauses), so the query restricts by the
conjunction of the *last-applied* of those three filters together with the
keyword-shortcut and remaining equality filters, which are combined with
AND.  The specification's scenario still holds: for criteria
`{titel: 'a', rating: 3}` the effective filter is `rating >= 3`, and over
the Alpha(5)/Zeta(1) corpus only "Alpha" is returned. -/
theorem c1_amended :
    (∀ (crit : Criteria) (pg : Pageable),
        (QueryBuilder.build crit pg).clauses =
          seedClausesOf crit ++ shortcutClausesOf crit ++ eqClausesOf crit) ∧
    runQuery (QueryBuilder.build critScen pg0) [alphaJ, zetaJ] = [alphaJ] :=
  ⟨build_clauses, by decide⟩

/-! ## Claim C2 -/

/-- C2, amended.  For every non-empty criteria object containing an
unrecognized key or an invalid `art` value, `SerieReadService.find` fails
before any query is built — the result is the same for every store — but
the error is a NestJS `NotFoundException` with message
`'Ungueltige Suchkriterien'`, not an error kind distinct from NotFound. -/
theorem c2_invalid_criteria (db : Db) (crit : Criteria) (pg : Pageable)
    (h : (∃ kv ∈ crit, SerieReadService.recognizedKey kv.1 = false) ∨
         (∃ v, crit.lookup "art" = some v ∧ SerieReadService.validArt v = false)) :
    SerieReadService.find db (some crit) pg =
      .error (.notFound "Ungueltige Suchkriterien") := by
  have hne : crit.isEmpty = false := by
    rcases h with ⟨kv, hm, _⟩ | ⟨v, hl, _⟩
    · cases crit with
      | nil => simp at hm
      | cons a l => rfl
    · cases crit with
      | nil => simp [List.lookup] at hl
      | cons a l => rfl
  have hcheck :
      (SerieReadService.checkKeys (crit.map Prod.fst) && SerieReadService.checkEnums crit) =
        false := by
    rcases h with ⟨kv, hm, hbad⟩ | ⟨v, hl, hbad⟩
    · have hk : SerieReadService.checkKeys (crit.map Prod.fst) = false := by
        cases hall : SerieReadService.checkKeys (crit.map Prod.fst) with
        | false => rfl
        | true =>
            exfalso
            have hx := (List.all_eq_true.mp hall) kv.1 (List.mem_map_of_mem Prod.fst hm)
            rw [hbad] at hx
            exact Bool.false_ne_true hx
      simp [hk]
    · have he : SerieReadService.checkEnums crit = false := by
        unfold SerieReadService.checkEnums
        rw [hl]
        exact hbad
      simp [he]
  unfold SerieReadService.find
  simp [hne, hcheck]

/-- C2, counterexample.  At the concrete criteria `{foo: 'x'}` the failure
is the `NotFoundException` kind — the very kind carrying missing-row
failures, as the second conjunct shows — so the claim's "invalid-criteria
error distinct from NotFound" does not hold of the code: the source throws
`new NotFoundException('Ungueltige Suchkriterien')` and has no separate
invalid-criteria exception class. -/
theorem c2_counterexample :
    SerieReadService.find dbAlpha (some [("foo", CritVal.str "x")]) pg0 =
      .error (.notFound "Ungueltige Suchkriterien") ∧
    SerieReadService.findById dbAlpha 99 false =
      .error (.notFound "Es gibt keine Serie mit der ID 99.") := by
  constructor <;> decide

/-- C2, witness. -/
theorem c2_witness :
    SerieReadService.find dbZeta (some [("bar", CritVal.str "y")]) pg0 =
      .error (.notFound "Ungueltige Suchkriterien") :=
  c2_invalid_criteria dbZeta [("bar", CritVal.str "y")] pg0
    (Or.inl ⟨("bar", CritVal.str "y"), by decide, by decide⟩)

/-! ## Claim C3 -/

/-- C3.  For an update on a stored Serie with a well-formed version token
parsing to `w`: if `w` is strictly below the stored version the call fails
with `VersionOutdatedException` (the functional result does not touch the
store); if `w` equals or exceeds the stored version the update is
accepted — a supplied version above the stored one is not rejected — the
payload is merged onto the stored record and the new version is the stored
version plus one, computed by the store, not taken from the caller. -/
theorem c3_update_version_check (db : Db) (id : Nat)
    (p : SerieWriteService.SeriePayload) (t : String) (w : Int) (ent : SerieEntity)
    (hpat : SerieWriteService.versionPatternTest t = true)
    (hparse : jsParseInt10 (SerieWriteService.sliceOneNegOne t) = some w)
    (hfind : SerieReadService.findById db id false = .ok ent) :
    (w < (ent.serie.version : Int) →
        SerieWriteService.update db (some id) p t = .error (.outdatedVersion w)) ∧
    ((ent.serie.version : Int) ≤ w →
        SerieWriteService.update db (some id) p t =
          .ok (ent.serie.version + 1,
            SerieWriteService.saveSerie db id
              { SerieWriteService.mergeSerie ent.serie p with
                version := ent.serie.version + 1 })) := by
  constructor
  · intro h
    simp [SerieWriteService.update, hpat, hfind, hparse, h]
  · intro h
    simp [SerieWriteService.update, hpat, hfind, hparse, not_lt.mpr h]

/-- C3, witness: the specification's concurrency scenario at version 2 with
token `"2"`. -/
theorem c3_witness :
    SerieWriteService.update dbV2 (some 1) payRating3 "\x222\x22" =
      .ok (3, SerieWriteService.saveSerie dbV2 1
        { SerieWriteService.mergeSerie { alphaRow with version := 2 } payRating3 with
          version := 3 }) := by
  have h :=
    (c3_update_version_check dbV2 1 payRating3 "\x222\x22" 2
      ⟨{ alphaRow with version := 2 }, alphaTitel, none⟩
      (by decide) (by decide) (by decide)).2 (by decide)
  simpa using h

/-! ## Claim C4 -/

/-- C4, the code bug.  The claim (and the source's own doc comment on
`delete`, "Sonst false") says deleting an absent id is a no-op success
returning false, and that a second delete of the same id returns false
without erroring.  The code first calls `findById`, which throws
`NotFoundException` for an absent id, so both the absent-id call and the
second of two consecutive deletes fail instead of returning false. -/
theorem c4_delete_absent_throws :
    SerieWriteService.delete dbAlpha 999999 =
      .error (.notFound "Es gibt keine Serie mit der ID 999999.") ∧
    SerieWriteService.delete dbAlpha 1 = .ok (true, dbEmptied) ∧
    SerieWriteService.delete dbEmptied 1 =
      .error (.notFound "Es gibt keine Serie mit der ID 1.") := by
  refine ⟨by decide, by decide, by decide⟩

/-! ## Claim C5 -/

/-- C5, the code bug.  The claim says `delete` removes the Titel row, every
Cover row and then the Serie row, leaving no child row.  The source reads
`serie.abbildungen` for the child collection, but the `Serie` entity
declares `covers`, not `abbildungen`; the read yields `undefined`,
`?? []` makes the loop body unreachable, and no Cover row is deleted; the
owned `serie_file` row is not touched either.  At a store with one Cover
and one BinaryFile child of the deleted Serie, both child rows survive. -/
theorem c5_delete_leaves_children :
    SerieWriteService.delete dbChildren 1 =
      .ok (true,
        { serien := [], titelRows := [], coverRows := [coverA], fileRows := [fileA]
          nextSerieId := 1000, nextTitelId := 1000, nextCoverId := 1000 }) ∧
    coverA.serieId = 1 ∧ fileA.serieId = 1 := by
  refine ⟨by decide, by decide, by decide⟩

/-! ## Claim C6 -/

/-- Characterization of the `\d{1,n}"` matcher. -/
theorem digitsThenQuote_iff (n : Nat) :
    ∀ l : List Char,
      SerieWriteService.digitsThenQuote n l = true ↔
        ∃ ds rest, l = ds ++ '\x22' :: rest ∧ ds ≠ [] ∧ ds.length ≤ n ∧
          ∀ c ∈ ds, c.isDigit = true := by
  induction n with
  | zero =>
      intro l
      simp only [SerieWriteService.digitsThenQuote, Bool.false_eq_true, false_iff]
      rintro ⟨ds, rest, -, hne, hlen, -⟩
      exact hne (List.eq_nil_of_length_eq_zero (Nat.le_zero.mp hlen))
  | succ n ih =>
      intro l
      cases l with
      | nil =>
          simp only [SerieWriteService.digitsThenQuote, Bool.false_eq_true, false_iff]
          rintro ⟨ds, rest, habs, -, -, -⟩
          exact (List.cons_ne_nil _ _) ((List.append_eq_nil.mp habs.symm).2)
      | cons c rest =>
          simp only [SerieWriteService.digitsThenQuote, Bool.and_eq_true, Bool.or_eq_true,
            beq_iff_eq]
          constructor
          · rintro ⟨hc, hq | hrec⟩
            · cases rest with
              | nil => simp at hq
              | cons r rest2 =>
                  simp only [List.head?, Option.some.injEq] at hq
                  refine ⟨[c], rest2, ?_, by simp, by simp, ?_⟩
                  · simp [hq]
                  · intro x hx
                    rw [List.mem_singleton.mp hx]
                    exact hc
            · obtain ⟨ds, rest2, hl, hne, hlen, hdig⟩ := (ih rest).mp hrec
              refine ⟨c :: ds, rest2, by simp [hl], by simp, by simpa using hlen, ?_⟩
              intro x hx
              rcases List.mem_cons.mp hx with hx | hx
              · rw [hx]; exact hc
              · exact hdig x hx
          · rintro ⟨ds, rest2, hl, hne, hlen, hdig⟩
            cases ds with
            | nil => exact absurd rfl hne
            | cons d ds2 =>
                simp only [List.cons_append, List.cons.injEq] at hl
                obtain ⟨hcd, hrest⟩ := hl
                refine ⟨by rw [hcd]; exact hdig d (List.mem_cons_self d ds2), ?_⟩
                cases ds2 with
                | nil =>
                    left
                    rw [hrest]
                    rfl
                | cons d2 ds3 =>
                    right
                    refine (ih rest).mpr ⟨d2 :: ds3, rest2, by simpa using hrest, by simp, ?_, ?_⟩
                    · simpa using Nat.le_of_succ_le_succ hlen
                    · intro x hx
                      exact hdig x (List.mem_cons_of_mem d hx)

/-- C6, amended.  `VERSION_PATTERN` is `/^"\d{1,3}"/u` — unanchored at the
end and capped at three digits — so a token is accepted exactly when it
*starts with* a quote, one to three decimal digits and a quote; trailing
characters are allowed and quoted integers of four or more digits are
rejected with `VersionInvalidException`. -/
theorem c6_version_pattern_characterization (s : String) :
    SerieWriteService.versionPatternTest s = true ↔
      ∃ ds rest, s.toList = '\x22' :: (ds ++ '\x22' :: rest) ∧ ds ≠ [] ∧
        ds.length ≤ 3 ∧ ∀ c ∈ ds, c.isDigit = true := by
  unfold SerieWriteService.versionPatternTest SerieWriteService.vpt
  cases h : s.toList with
  | nil =>
      simp only [Bool.false_eq_true, false_iff]
      rintro ⟨ds, rest, habs, -, -, -⟩
      exact List.cons_ne_nil _ _ habs.symm
  | cons c rest =>
      simp only [Bool.and_eq_true, beq_iff_eq]
      rw [digitsThenQuote_iff]
      constructor
      · rintro ⟨hc, ds, rest2, hrest, hne, hlen, hdig⟩
        exact ⟨ds, rest2, by rw [hc, hrest], hne, hlen, hdig⟩
      · rintro ⟨ds, rest2, hl, hne, hlen, hdig⟩
        obtain ⟨hcq, hrest⟩ := List.cons.injEq _ _ _ _ ▸ hl
        exact ⟨hcq, ds, rest2, hrest, hne, hlen, hdig⟩

/-- C6, witness: the characterization applied at the concrete accepted
token `"3"x`. -/
theorem c6_witness :
    ∃ ds rest, "\x223\x22x".toList = '\x22' :: (ds ++ '\x22' :: rest) ∧ ds ≠ [] ∧
      ds.length ≤ 3 ∧ ∀ c ∈ ds, c.isDigit = true :=
  (c6_version_pattern_characterization "\x223\x22x").mp (by decide)

/-- C6, counterexample.  `"1234"` is a quoted decimal integer in the
claim's sense but is rejected with `VersionInvalidException`, and
`"12"xyz` is no quoted decimal integer but passes the pattern test. -/
theorem c6_counterexample :
    specQuotedDecimalInteger "\x221234\x22" = true ∧
    SerieWriteService.versionPatternTest "\x221234\x22" = false ∧
    SerieWriteService.update dbV2 (some 1) payRating3 "\x221234\x22" =
      .error (.invalidVersion "\x221234\x22") ∧
    specQuotedDecimalInteger "\x2212\x22xyz" = false ∧
    SerieWriteService.versionPatternTest "\x2212\x22xyz" = true := by
  refine ⟨by decide, by decide, by decide, by decide, by decide⟩

/-! ## Claim C7 -/

/-- C7.  With the `java` shortcut set, the built query carries the clause
`REPLACE(schlagwoerter, 'JAVASCRIPT', '') LIKE '%JAVA%'`: a Serie tagged
only with `JAVASCRIPT` fails it, a Serie tagged with both `JAVA` and
`JAVASCRIPT` satisfies it; over a two-row corpus only the doubly-tagged
row is returned. -/
theorem c7_java_shortcut (crit : Criteria) (pg : Pageable)
    (h : shortcutOn crit "java" = true) :
    Clause.schlagwortLikeReplace "JAVASCRIPT" "JAVA" ∈ (QueryBuilder.build crit pg).clauses ∧
    (∀ r : SerieJoined, r.serie.schlagwoerter = some ["JAVASCRIPT"] →
        evalClause (.schlagwortLikeReplace "JAVASCRIPT" "JAVA") r = false) ∧
    (∀ r : SerieJoined, r.serie.schlagwoerter = some ["JAVA", "JAVASCRIPT"] →
        evalClause (.schlagwortLikeReplace "JAVASCRIPT" "JAVA") r = true) ∧
    runQuery (QueryBuilder.build [("java", CritVal.str "true")] pg0) [alphaJ, bothJ] =
      [bothJ] := by
  refine ⟨?_, ?_, ?_, by decide⟩
  · rw [build_clauses]
    simp [shortcutClausesOf, h]
  · intro r hr
    simp only [evalClause, hr]
    decide
  · intro r hr
    simp only [evalClause, hr]
    decide

/-- C7, witness. -/
theorem c7_witness :
    Clause.schlagwortLikeReplace "JAVASCRIPT" "JAVA" ∈
      (QueryBuilder.build [("java", CritVal.str "true")] pg0).clauses :=
  (c7_java_shortcut [("java", CritVal.str "true")] pg0 (by decide)).1

/-! ## Claim C8 -/

/-- C8, the code bug.  The claim says the uniqueness check is on the serial
number (`seriennummer`).  `#validateCreate` destructures the `isbn`
property, which the `Serie` entity does not declare, so the check never
reads the serial number: a create whose serial number `SER-2` is *not*
stored is still rejected with `IsbnExistsException` because the store
holds a (differently numbered) Serie. -/
theorem c8_create_checks_wrong_field :
    SerieWriteService.create dbAlpha freshInput = .error (.alreadyExists none) ∧
    freshInput.seriennummer = "SER-2" ∧
    (∀ r ∈ dbAlpha.serien, r.seriennummer ≠ freshInput.seriennummer) := by
  refine ⟨by decide, by decide, by decide⟩

/-! ## Claim C9 -/

/-- Normalization always yields a present keyword list. -/
theorem normalizeEntity_isSome (e : SerieEntity) :
    ((SerieReadService.normalizeEntity e).serie.schlagwoerter).isSome = true := by
  unfold SerieReadService.normalizeEntity
  rcases h : e.serie.schlagwoerter with _ | l <;> simp [h]

/-- Every entity in a created slice has a present keyword list. -/
theorem createSlice_isSome (l : List SerieEntity) (n : Nat) (e : SerieEntity)
    (he : e ∈ (SerieReadService.createSlice l n).content) :
    (e.serie.schlagwoerter).isSome = true := by
  unfold SerieReadService.createSlice at he
  obtain ⟨x, -, rfl⟩ := List.mem_map.mp he
  exact normalizeEntity_isSome x

/-- C9.  Keyword normalization: `findById` never returns an absent keyword
list (NULL in storage becomes the empty list), and every Serie in the
content of a `find` result likewise carries a present keyword list. -/
theorem c9_keywords_normalized :
    (∀ (db : Db) (id : Nat) (mc : Bool) (e : SerieEntity),
        SerieReadService.findById db id mc = .ok e →
          (e.serie.schlagwoerter).isSome = true) ∧
    (∀ (db : Db) (crit? : Option Criteria) (pg : Pageable) (sl : Slice),
        SerieReadService.find db crit? pg = .ok sl →
          ∀ e ∈ sl.content, (e.serie.schlagwoerter).isSome = true) := by
  constructor
  · intro db id mc e h
    unfold SerieReadService.findById at h
    split at h
    · exact absurd h (by simp)
    · obtain rfl := (Except.ok.injEq _ _).mp h
      exact normalizeEntity_isSome _
  · intro db crit? pg sl h e he
    have hAll : ∀ (dbx : Db) (pgx : Pageable),
        SerieReadService.findAll dbx pgx = .ok sl →
          (e.serie.schlagwoerter).isSome = true := by
      intro dbx pgx hx
      unfold SerieReadService.findAll at hx
      simp only [] at hx
      split at hx
      · exact absurd hx (by simp)
      · split at hx
        · exact absurd hx (by simp)
        · obtain rfl := (Except.ok.injEq _ _).mp hx
          exact createSlice_isSome _ _ e he
    unfold SerieReadService.find at h
    split at h
    · exact hAll db pg h
    · split at h
      · exact hAll db pg h
      · split at h
        · exact absurd h (by simp)
        · simp only [] at h
          split at h
          · exact absurd h (by simp)
          · split at h
            · exact absurd h (by simp)
            · obtain rfl := (Except.ok.injEq _ _).mp h
              exact createSlice_isSome _ _ e he

/-- C9, witness: a Serie stored with NULL keywords is returned with the
empty list. -/
theorem c9_witness :
    ((⟨{ zetaRow with schlagwoerter := some [] }, zetaTitel, none⟩ : SerieEntity).serie.schlagwoerter).isSome = true :=
  c9_keywords_normalized.1 dbZeta 2 false
    ⟨{ zetaRow with schlagwoerter := some [] }, zetaTitel, none⟩ (by decide)

/-! ## Claim C10 -/

/-- The rating branch never installs a price clause. -/
theorem ratingClauseOf_not_preis (crit : Criteria) (c : Clause)
    (h : ratingClauseOf crit = some c) : isPreisClause c = false := by
  unfold ratingClauseOf at h
  split at h
  · exact absurd h (by simp)
  · split at h
    · obtain rfl := (Option.some.injEq _ _).mp h
      rfl
    · exact absurd h (by simp)

/-- The titel branch never installs a price clause. -/
theorem titelClauseOf_not_preis (crit : Criteria) (c : Clause)
    (h : titelClauseOf crit = some c) : isPreisClause c = false := by
  unfold titelClauseOf at h
  split at h
  · obtain rfl := (Option.some.injEq _ _).mp h
    rfl
  · exact absurd h (by simp)

/-- Keyword-shortcut clauses are never price clauses. -/
theorem shortcutClausesOf_not_preis (crit : Criteria) (c : Clause)
    (h : c ∈ shortcutClausesOf crit) : isPreisClause c = false := by
  unfold shortcutClausesOf at h
  simp only [List.mem_append] at h
  rcases h with ((h | h) | h) | h <;>
    · split at h
      · obtain rfl := List.mem_singleton.mp h
        rfl
      · exact absurd h (by simp)

/-- C10, counterexample.  The claim says the `preis <= NaN` clause "matches
no rows", i.e. executing the query yields the empty row set (which `find`
would report as `NotFoundException('Keine Buecher gefunden')`).  In fact
the bare `NaN` interpolation is an invalid column reference: at criteria
`{preis: 'abc'}` the driver fails the query with a `QueryFailedError`
instead of returning no rows, and `find` surfaces that error. -/
theorem c10_counterexample :
    Clause.preisLe JsNum.nan ∈
      (QueryBuilder.build [("preis", CritVal.str "abc")] pg0).clauses ∧
    execQuery (QueryBuilder.build [("preis", CritVal.str "abc")] pg0) [alphaJ] =
      .error invalidColumnMsg ∧
    SerieReadService.find dbAlpha (some [("preis", CritVal.str "abc")]) pg0 =
      .error (.queryFailed invalidColumnMsg) := by
  refine ⟨by decide, by decide, by decide⟩

/-- C10, amended.  The `preis` branch fires only for string values: a
defined non-string `preis` contributes no price clause at all, and a string
that `Number(...)` cannot parse yields the SQL text `preis <= NaN`, whose
bare `NaN` is an invalid column reference, so the query fails at execution
with a driver error (over every corpus) instead of filtering rows; either
way callers cannot rely on a numeric `preis` value being filtered. -/
theorem c10_preis_amended (crit : Criteria) (pg : Pageable) :
    (∀ v, crit.lookup "preis" = some v → (∀ s, v ≠ CritVal.str s) →
        ∀ c ∈ (QueryBuilder.build crit pg).clauses, isPreisClause c = false) ∧
    (∀ s, crit.lookup "preis" = some (CritVal.str s) → jsNumberOfString s = JsNum.nan →
        Clause.preisLe JsNum.nan ∈ (QueryBuilder.build crit pg).clauses ∧
        ∀ corpus : List SerieJoined,
          execQuery (QueryBuilder.build crit pg) corpus = .error invalidColumnMsg) := by
  constructor
  · intro v hv hns c hc
    have hp : preisClauseOf crit = none := by
      unfold preisClauseOf
      rw [hv]
      rcases v with s | q | b
      · exact absurd rfl (hns s)
      · rfl
      · rfl
    rw [build_clauses] at hc
    simp only [List.mem_append] at hc
    rcases hc with (hc | hc) | hc
    · unfold seedClausesOf at hc
      rw [hp] at hc
      rcases hr : ratingClauseOf crit with _ | cr
      · rw [hr] at hc
        rcases ht : titelClauseOf crit with _ | ct
        · rw [ht] at hc
          exact absurd hc (by simp)
        · rw [ht] at hc
          have hcc : c = ct := by simpa using hc
          rw [hcc]
          exact titelClauseOf_not_preis crit ct ht
      · rw [hr] at hc
        have hcc : c = cr := by simpa using hc
        rw [hcc]
        exact ratingClauseOf_not_preis crit cr hr
    · exact shortcutClausesOf_not_preis crit c hc
    · unfold eqClausesOf at hc
      obtain ⟨kv, -, rfl⟩ := List.mem_map.mp hc
      rfl
  · intro s hs hnan
    have hp : preisClauseOf crit = some (.preisLe JsNum.nan) := by
      unfold preisClauseOf
      rw [hs]
      simp [hnan]
    have hseed : seedClausesOf crit = [Clause.preisLe JsNum.nan] := by
      unfold seedClausesOf
      rw [hp]
    have hmem : Clause.preisLe JsNum.nan ∈ (QueryBuilder.build crit pg).clauses := by
      rw [build_clauses]
      simp [hseed]
    refine ⟨hmem, ?_⟩
    intro corpus
    unfold execQuery
    rw [if_neg]
    intro hall
    have hv := List.all_eq_true.mp hall _ hmem
    exact Bool.false_ne_true hv

/-- C10, witness. -/
theorem c10_witness :
    execQuery (QueryBuilder.build [("preis", CritVal.str "abc")] pg0) [alphaJ, zetaJ] =
      .error invalidColumnMsg :=
  ((c10_preis_amended [("preis", CritVal.str "abc")] pg0).2 "abc"
    (by decide) (by decide)).2 [alphaJ, zetaJ]

end Serie
